import Mathlib

/-!
# CrewHub native shell — verification of the window-lifecycle and tray-state coordinator

Shallow embedding of `src/frontend/src-tauri/src/lib.rs` (the only source file):
the tray badge controller (`update_tray_badge`), the window registry
(`open_or_focus_*` / `show_and_focus`), the close-intercept policy
(the `on_window_event` closure), the menu/tray dispatch (the `on_menu_event`
and `on_tray_icon_event` closures of `setup_tray`) and the per-window builder
configuration.

Host-toolkit effects (tray lookup, icon loading, `set_icon`, `set_tooltip`,
window construction, `show`, `set_focus`, `hide`, `prevent_close`) are modelled
by explicit environment flags for their success/failure and by an effect trace
listing the mutations actually performed, in program order.
-/

namespace CrewHub

/-- A single quote character (U+0027), used to build the JavaScript string
literals that appear in the Rust source. -/
def sq : String := (Char.ofNat 39).toString

/-! ## Tray badge controller -/

/-- Identity of the icon applied to the tray: the default window icon of the app, or
an image loaded from a named file under the bundled `icons` resource dir. -/
inductive TrayIcon where
  | Default : TrayIcon
  | FromFile : String → TrayIcon
deriving DecidableEq, Repr

/-- A mutation actually performed on the tray (in program order). -/
inductive TrayEffect where
  | SetIcon : TrayIcon → TrayEffect
  | SetTooltip : String → TrayEffect
deriving DecidableEq, Repr

/-- Success/failure of each host-toolkit step `update_tray_badge` performs:
whether `app.tray_by_id(TRAY_ID)` finds the tray, whether
`app.default_window_icon()` exists, whether `app.path().resource_dir()`
resolves, whether `Image::from_path` succeeds for a given badge file name, and
whether `tray.set_icon` / `tray.set_tooltip` succeed. -/
structure TrayEnv where
  trayExists : Bool
  defaultIconExists : Bool
  resourceDirOk : Bool
  iconLoadOk : String → Bool
  setIconOk : Bool
  setTooltipOk : Bool

/-- The environment in which every host-toolkit step succeeds. -/
def okEnv : TrayEnv :=
  { trayExists := true, defaultIconExists := true, resourceDirOk := true
    iconLoadOk := fun _ => true, setIconOk := true, setTooltipOk := true }

/-- The `match count` in `update_tray_badge` choosing the badge icon file name
(only reached when `count != 0`). -/
def badge_icon_file (count : Nat) : String :=
  match count with
  | 1 => "tray-badge-1.png"
  | 2 => "tray-badge-2.png"
  | _ => "tray-badge-3plus.png"

/-- The `let icon = if count == 0 { ... } else { ... }` icon-resolution step of
`update_tray_badge`: the default window icon for count 0, otherwise the badge
image loaded from the resource dir; each step can fail with an error string. -/
def resolve_icon (env : TrayEnv) (count : Nat) : Except String TrayIcon :=
  if count = 0 then
    if env.defaultIconExists then .ok .Default
    else .error "No default icon"
  else
    if env.resourceDirOk then
      let name := badge_icon_file count
      if env.iconLoadOk name then .ok (.FromFile name)
      else .error ("Failed to load badge icon " ++ sq ++ name ++ sq)
    else .error "resource_dir error"

/-- The tooltip text chosen by `update_tray_badge`: `"CrewHub"` for count 0,
else the format string `"CrewHub â€” {} unread"` with the count substituted
(the bytes of the source file literally contain the characters `â€”`). -/
def tray_tooltip (count : Nat) : String :=
  if count = 0 then "CrewHub"
  else "CrewHub â€” " ++ toString count ++ " unread"

instance {ε α : Type} [DecidableEq ε] [DecidableEq α] : DecidableEq (Except ε α) := fun a b =>
  match a, b with
  | .ok x, .ok y =>
    if h : x = y then isTrue (by rw [h]) else isFalse (by simp [h])
  | .error e, .error f =>
    if h : e = f then isTrue (by rw [h]) else isFalse (by simp [h])
  | .ok _, .error _ => isFalse (by simp)
  | .error _, .ok _ => isFalse (by simp)

/-- Outcome of one `update_tray_badge` call: the returned `Result`, the value
left in the `BadgeCount` state, and the tray mutations performed. -/
structure TrayCallResult where
  result : Except String Unit
  newCount : Nat
  effects : List TrayEffect
deriving DecidableEq, Repr

/-- The `update_tray_badge` command: debounce against the stored count, store
the new count, look up the tray, resolve and load the icon, then `set_icon`
and `set_tooltip` — each later step can fail, and failure after the store
leaves the stored count at the new value. -/
def update_tray_badge (env : TrayEnv) (stored count : Nat) : TrayCallResult :=
  if stored = count then
    { result := .ok (), newCount := stored, effects := [] }
  else
    if env.trayExists then
      match resolve_icon env count with
      | .error e => { result := .error e, newCount := count, effects := [] }
      | .ok icon =>
        if env.setIconOk then
          if env.setTooltipOk then
            { result := .ok (), newCount := count
              effects := [.SetIcon icon, .SetTooltip (tray_tooltip count)] }
          else
            { result := .error "set_tooltip error", newCount := count
              effects := [.SetIcon icon] }
        else
          { result := .error "set_icon error", newCount := count, effects := [] }
    else
      { result := .error "Tray icon not found", newCount := count, effects := [] }

/-- Run a sequence of `update_tray_badge` calls, threading the stored count and
collecting the effect list of each call. -/
def run_badge_calls (env : TrayEnv) (stored : Nat) : List Nat → Nat × List (List TrayEffect)
  | [] => (stored, [])
  | c :: cs =>
    let r := update_tray_badge env stored c
    let rest := run_badge_calls env r.newCount cs
    (rest.1, r.effects :: rest.2)

/-- The icons applied by a list of tray effects, in order. -/
def icon_swaps (effs : List TrayEffect) : List TrayIcon :=
  effs.filterMap fun e =>
    match e with
    | .SetIcon i => some i
    | .SetTooltip _ => none

/-- The bucket function stated by the spec: 0→Default, 1→Badge1, 2→Badge2,
every count ≥ 3→Badge3Plus (the badge icons named by their resource files). -/
def spec_bucket_icon (count : Nat) : TrayIcon :=
  if count = 0 then .Default
  else if count = 1 then .FromFile "tray-badge-1.png"
  else if count = 2 then .FromFile "tray-badge-2.png"
  else .FromFile "tray-badge-3plus.png"

/-- The `BadgeCount` state managed at startup: `BadgeCount(Mutex::new(0))`. -/
def initial_badge_count : Nat := 0

/-- In the all-ok environment, icon resolution always succeeds and returns
exactly the bucket the spec states for the count. -/
theorem resolve_icon_okEnv (count : Nat) :
    resolve_icon okEnv count = .ok (spec_bucket_icon count) := by
  match count with
  | 0 => rfl
  | 1 => rfl
  | 2 => rfl
  | (n + 3) => rfl

/-! ## Window registry, close-intercept policy, menu dispatch -/

/-- The window-label constants of the source. -/
def CHAT_WINDOW_LABEL : String := "chat"

def WORLD_WINDOW_LABEL : String := "world"

def SETTINGS_WINDOW_LABEL : String := "settings"

def ZEN_WINDOW_LABEL : String := "zen-mode"

def TRAY_ID : String := "main-tray"

/-- A live OS window handle: its construction identity (which build produced
it) and its current visibility/focus. -/
structure WinHandle where
  id : Nat
  visible : Bool
  focused : Bool
deriving DecidableEq, Repr

/-- A host-toolkit window operation actually performed (in program order).
`LogError` is the `eprintln!` on a failed `build()`. -/
inductive WinEffect where
  | Construct : WinEffect
  | ShowWin : WinEffect
  | SetFocus : WinEffect
  | PreventClose : WinEffect
  | HideWin : WinEffect
  | LogError : WinEffect
deriving DecidableEq, BEq, Repr

/-- Registry state for one window name: `app.get_webview_window(label)` result
(the handle, if the window was ever built) plus a fresh-id counter for builds. -/
structure WinRegState where
  handle : Option WinHandle
  nextId : Nat
deriving DecidableEq, Repr

/-- `show_and_focus`: `window.show()` then `window.set_focus()`, in that
order (errors are discarded with `let _ =` in the source). -/
def show_and_focus (w : WinHandle) : WinHandle × List WinEffect :=
  ({ w with visible := true, focused := true }, [.ShowWin, .SetFocus])

/-- One `open_or_focus_*` call for a fixed window name: if a handle exists,
`show_and_focus` it; otherwise build the window (`buildOk` says whether
`WebviewWindowBuilder::build()` succeeds), then `show_and_focus` on success,
or log the error and return normally on failure. -/
def open_or_focus (buildOk : Bool) (st : WinRegState) : WinRegState × List WinEffect :=
  match st.handle with
  | some w =>
    let r := show_and_focus w
    ({ st with handle := some r.1 }, r.2)
  | none =>
    if buildOk then
      let w : WinHandle := { id := st.nextId, visible := false, focused := false }
      let r := show_and_focus w
      ({ handle := some r.1, nextId := st.nextId + 1 }, .Construct :: r.2)
    else
      (st, [.LogError])

/-- Run a sequence of `open_or_focus` calls (each with its own build outcome),
collecting the effect list of each call. -/
def run_open_calls (st : WinRegState) : List Bool → WinRegState × List (List WinEffect)
  | [] => (st, [])
  | b :: bs =>
    let r := open_or_focus b st
    let rest := run_open_calls r.1 bs
    (rest.1, r.2 :: rest.2)

/-- The `open_or_focus` sequence of the idempotent-creation property:
`n` calls, all with successful builds, starting from the no-window state. -/
def open_seq (n : Nat) : WinRegState × List (List WinEffect) :=
  run_open_calls { handle := none, nextId := 0 } (List.replicate n true)

/-- Number of window constructions in a list of per-call effect lists. -/
def construct_count (lists : List (List WinEffect)) : Nat :=
  (lists.map fun l => l.count .Construct).sum

/-- The label test of the `on_window_event` close-intercept closure. -/
def is_managed_label (label : String) : Bool :=
  label == CHAT_WINDOW_LABEL || label == WORLD_WINDOW_LABEL ||
    label == SETTINGS_WINDOW_LABEL || label == ZEN_WINDOW_LABEL

/-- The `CloseRequested` arm of the `on_window_event` closure, applied to the
window that raised the event: for a managed label, `api.prevent_close()` then
`window.hide()` (the handle survives, hidden); for any other label the default
destroy proceeds and the handle is gone. -/
def on_close_requested (label : String) (w : WinHandle) :
    Option WinHandle × List WinEffect :=
  if is_managed_label label then
    (some { w with visible := false }, [.PreventClose, .HideWin])
  else
    (none, [])

/-- The action a menu/tray event dispatches to. -/
inductive MenuAction where
  | OpenChat : MenuAction
  | OpenWorld : MenuAction
  | OpenZen : MenuAction
  | OpenSettings : MenuAction
  | Quit : Nat → MenuAction
  | LogUnknown : String → MenuAction
deriving DecidableEq, Repr

/-- The `on_menu_event` dispatch of `setup_tray`: match on the menu item id;
`"quit"` calls `app.exit(0)`; any other id is logged (`eprintln!`) and ignored. -/
def on_menu_event (id : String) : MenuAction :=
  if id = "chat" then .OpenChat
  else if id = "world" then .OpenWorld
  else if id = "zen" then .OpenZen
  else if id = "settings" then .OpenSettings
  else if id = "quit" then .Quit 0
  else .LogUnknown id

/-- Does the action end the process? Only `app.exit` does. -/
def terminates_process : MenuAction → Bool
  | .Quit _ => true
  | _ => false

inductive MouseButton where
  | Left : MouseButton
  | Right : MouseButton
  | Middle : MouseButton
deriving DecidableEq, Repr

inductive MouseButtonState where
  | Up : MouseButtonState
  | Down : MouseButtonState
deriving DecidableEq, Repr

/-! ## Init scripts and window builder configuration -/

/-- `backend_url()`: the `VITE_API_URL` environment variable if set, else the
fixed fallback. The environment is passed in as `apiUrlVar`. -/
def backend_url (apiUrlVar : Option String) : String :=
  apiUrlVar.getD "http://localhost:8091"

/-- The backend-URL global assignment every init script starts its backend
setup with: `window.__CREWHUB_BACKEND_URL__ = <quoted url>` (sans trailing `;`). -/
def backend_url_assign (apiUrlVar : Option String) : String :=
  "window.__CREWHUB_BACKEND_URL__ = " ++ sq ++ backend_url apiUrlVar ++ sq

/-- The statement persisting the onboarding-complete flag:
`localStorage.setItem(<quoted crewhub-onboarded>, <quoted true>);`. -/
def onboarding_persist_stmt : String :=
  "localStorage.setItem(" ++ sq ++ "crewhub-onboarded" ++ sq ++ ", " ++
    sq ++ "true" ++ sq ++ ");"

/-- `base_init()`: sets the backend URL global and persists the onboarding
flag (bytewise the format string of the source with the url substituted). -/
def base_init (apiUrlVar : Option String) : String :=
  backend_url_assign apiUrlVar ++ "; " ++ onboarding_persist_stmt

/-- `chat_init_script()`: the mobile view-mode assignment + base init. -/
def chat_init_script (apiUrlVar : Option String) : String :=
  "window.__TAURI_VIEW__ = " ++ sq ++ "mobile" ++ sq ++ "; " ++ base_init apiUrlVar

/-- `world_init_script()`: the desktop view-mode assignment + base init. -/
def world_init_script (apiUrlVar : Option String) : String :=
  "window.__TAURI_VIEW__ = " ++ sq ++ "desktop" ++ sq ++ "; " ++ base_init apiUrlVar

/-- `zen_init_script()`: the zen view-mode assignment + base init. -/
def zen_init_script (apiUrlVar : Option String) : String :=
  "window.__TAURI_VIEW__ = " ++ sq ++ "zen" ++ sq ++ "; " ++ base_init apiUrlVar

/-- `settings_init_script()`: sets the view mode and the backend URL global
only — it does not go through `base_init`. -/
def settings_init_script (apiUrlVar : Option String) : String :=
  "window.__TAURI_VIEW__ = " ++ sq ++ "settings" ++ sq ++ "; " ++
    backend_url_assign apiUrlVar ++ ";"

/-- `pat` occurs as a contiguous substring of `s`. -/
def contains_sub (s pat : String) : Prop :=
  pat.toList <:+: s.toList

instance (s pat : String) : Decidable (contains_sub s pat) :=
  List.decidableInfix pat.toList s.toList

/-- The builder configuration of one window, as set by the
`WebviewWindowBuilder` call chain in its `open_or_focus_*` function. Sizes in
the source are `f64` literals with integral values, held here as `Nat`. -/
structure WindowSpec where
  label : String
  title : String
  width : Nat
  height : Nat
  minWidth : Option Nat
  minHeight : Option Nat
  resizable : Bool
  fullscreen : Bool
  decorations : Bool
  alwaysOnTop : Bool
  skipTaskbar : Bool
  initScript : String
deriving DecidableEq, Repr

/-- Builder chain of `open_or_focus_chat`. -/
def chat_spec (apiUrlVar : Option String) : WindowSpec :=
  { label := CHAT_WINDOW_LABEL, title := "CrewHub Chat"
    width := 390, height := 700, minWidth := some 320, minHeight := some 500
    resizable := true, fullscreen := false, decorations := true
    alwaysOnTop := false, skipTaskbar := true
    initScript := chat_init_script apiUrlVar }

/-- Builder chain of `open_or_focus_world` (`skip_taskbar` is not called, so
the builder default `false` applies: the window is taskbar-visible). -/
def world_spec (apiUrlVar : Option String) : WindowSpec :=
  { label := WORLD_WINDOW_LABEL, title := "CrewHub 3D World"
    width := 1280, height := 900, minWidth := some 900, minHeight := some 600
    resizable := true, fullscreen := false, decorations := true
    alwaysOnTop := false, skipTaskbar := false
    initScript := world_init_script apiUrlVar }

/-- Builder chain of `open_or_focus_zen`. -/
def zen_spec (apiUrlVar : Option String) : WindowSpec :=
  { label := ZEN_WINDOW_LABEL, title := "Zen Mode"
    width := 820, height := 920, minWidth := some 600, minHeight := some 500
    resizable := true, fullscreen := false, decorations := true
    alwaysOnTop := false, skipTaskbar := false
    initScript := zen_init_script apiUrlVar }

/-- Builder chain of `open_or_focus_settings` (no `min_inner_size` call). -/
def settings_spec (apiUrlVar : Option String) : WindowSpec :=
  { label := SETTINGS_WINDOW_LABEL, title := "CrewHub Settings"
    width := 420, height := 280, minWidth := none, minHeight := none
    resizable := false, fullscreen := false, decorations := true
    alwaysOnTop := true, skipTaskbar := true
    initScript := settings_init_script apiUrlVar }

/-- The tray icon events the `on_tray_icon_event` closure can receive. -/
inductive TrayIconEvent where
  | Click : MouseButton → MouseButtonState → TrayIconEvent
  | DoubleClick : MouseButton → TrayIconEvent
  | Enter : TrayIconEvent
  | Move : TrayIconEvent
  | Leave : TrayIconEvent
deriving DecidableEq, Repr

/-- The `on_tray_icon_event` closure of `setup_tray`: only a left-button
mouse-up click opens/focuses chat; every other event does nothing. -/
def on_tray_icon_event : TrayIconEvent → Option MenuAction
  | .Click .Left .Up => some .OpenChat
  | _ => none

/-! ## Helper lemmas -/

theorem str_toList_append (a b : String) : (a ++ b).toList = a.toList ++ b.toList := by
  cases a
  cases b
  rfl

/-- A non-debounced call in the all-ok environment stores the count and
performs exactly the bucket icon swap and the tooltip update. -/
theorem update_tray_badge_okEnv (stored count : Nat) (h : stored ≠ count) :
    update_tray_badge okEnv stored count =
      { result := .ok (), newCount := count
        effects := [.SetIcon (spec_bucket_icon count), .SetTooltip (tray_tooltip count)] } := by
  unfold update_tray_badge
  rw [if_neg h, resolve_icon_okEnv]
  rfl

/-- A debounced call (count equals the stored count) returns `Ok` at once with
no effects, in every environment. -/
theorem update_tray_badge_self (env : TrayEnv) (c : Nat) :
    update_tray_badge env c c = { result := .ok (), newCount := c, effects := [] } := by
  unfold update_tray_badge
  rw [if_pos rfl]

/-- A non-debounced call stores the new count no matter which later step
fails. -/
theorem update_tray_badge_newCount (env : TrayEnv) (stored count : Nat) (h : stored ≠ count) :
    (update_tray_badge env stored count).newCount = count := by
  unfold update_tray_badge
  rw [if_neg h]
  (repeat' split) <;> rfl

/-! ## Claims -/

/-- C1: a non-debounced `update_tray_badge(count)` call picks the icon as the
exact bucket function of the count (0 → default icon, 1 → tray-badge-1.png,
2 → tray-badge-2.png, ≥ 3 → tray-badge-3plus.png, so 3 and 1000 share the
Badge3Plus icon) and sets the tooltip to the base label `"CrewHub"` for 0 and
to a label containing the literal count otherwise. -/
theorem update_tray_badge_bucket_exact (stored count : Nat) (h : stored ≠ count) :
    (update_tray_badge okEnv stored count).result = .ok () ∧
    (update_tray_badge okEnv stored count).effects =
      [.SetIcon (spec_bucket_icon count), .SetTooltip (tray_tooltip count)] ∧
    spec_bucket_icon 0 = .Default ∧
    spec_bucket_icon 1 = .FromFile "tray-badge-1.png" ∧
    spec_bucket_icon 2 = .FromFile "tray-badge-2.png" ∧
    (3 ≤ count → spec_bucket_icon count = .FromFile "tray-badge-3plus.png") ∧
    spec_bucket_icon 3 = spec_bucket_icon 1000 ∧
    tray_tooltip 0 = "CrewHub" ∧
    (count ≠ 0 → contains_sub (tray_tooltip count) (toString count)) := by
  rw [update_tray_badge_okEnv stored count h]
  refine ⟨rfl, rfl, rfl, rfl, rfl, ?_, rfl, rfl, ?_⟩
  · intro hge
    obtain ⟨k, rfl⟩ := Nat.exists_eq_add_of_le hge
    rw [Nat.add_comm]
    rfl
  · intro hc
    have ht : tray_tooltip count = "CrewHub â€” " ++ toString count ++ " unread" := by
      simp [tray_tooltip, hc]
    refine ⟨"CrewHub â€” ".toList, " unread".toList, ?_⟩
    rw [ht, str_toList_append, str_toList_append]

theorem update_tray_badge_bucket_exact_witness :
    (update_tray_badge okEnv 0 7).effects =
      [.SetIcon (spec_bucket_icon 7), .SetTooltip (tray_tooltip 7)] ∧
    spec_bucket_icon 7 = .FromFile "tray-badge-3plus.png" ∧
    contains_sub (tray_tooltip 7) (toString 7) :=
  ⟨(update_tray_badge_bucket_exact 0 7 (by decide)).2.1,
   (update_tray_badge_bucket_exact 0 7 (by decide)).2.2.2.2.2.1 (by decide),
   (update_tray_badge_bucket_exact 0 7 (by decide)).2.2.2.2.2.2.2.2 (by decide)⟩

/-- C2: a call with the stored count is an immediate success with no icon or
tooltip mutation, and the sequence `setBadge(2); setBadge(2); setBadge(0)`
from a stored count other than 2 performs exactly two icon swaps — to Badge2,
then to the default icon — with the repeated 2 producing zero effects. -/
theorem update_tray_badge_debounce_scenario (env : TrayEnv) (stored : Nat) (h : stored ≠ 2) :
    update_tray_badge env stored stored =
      { result := .ok (), newCount := stored, effects := [] } ∧
    run_badge_calls okEnv stored [2, 2, 0] =
      (0, [[.SetIcon (.FromFile "tray-badge-2.png"), .SetTooltip (tray_tooltip 2)],
           [],
           [.SetIcon .Default, .SetTooltip "CrewHub"]]) ∧
    icon_swaps (run_badge_calls okEnv stored [2, 2, 0]).2.flatten =
      [.FromFile "tray-badge-2.png", .Default] := by
  have hrun : run_badge_calls okEnv stored [2, 2, 0] =
      (0, [[.SetIcon (.FromFile "tray-badge-2.png"), .SetTooltip (tray_tooltip 2)],
           [],
           [.SetIcon .Default, .SetTooltip "CrewHub"]]) := by
    simp only [run_badge_calls, update_tray_badge_okEnv stored 2 h]
    decide
  refine ⟨update_tray_badge_self env stored, hrun, ?_⟩
  rw [hrun]
  decide

theorem update_tray_badge_debounce_scenario_witness :
    update_tray_badge okEnv 5 5 = { result := .ok (), newCount := 5, effects := [] } ∧
    run_badge_calls okEnv 5 [2, 2, 0] =
      (0, [[.SetIcon (.FromFile "tray-badge-2.png"), .SetTooltip (tray_tooltip 2)],
           [],
           [.SetIcon .Default, .SetTooltip "CrewHub"]]) :=
  ⟨(update_tray_badge_debounce_scenario okEnv 5 (by decide)).1,
   (update_tray_badge_debounce_scenario okEnv 5 (by decide)).2.1⟩

/-- C3: a non-debounced call stores the new count before any tray mutation is
attempted, so whatever later step fails the stored count keeps the new value
(no rollback) and a repeat call with the same count is a successful no-op; in
particular with no tray the call errors with `"Tray icon not found"`, count
stored, nothing mutated. -/
theorem update_tray_badge_no_rollback (env env2 : TrayEnv) (stored count : Nat)
    (h : stored ≠ count) :
    (update_tray_badge env stored count).newCount = count ∧
    (∀ e, (update_tray_badge env stored count).result = .error e →
      update_tray_badge env2 count count =
        { result := .ok (), newCount := count, effects := [] }) ∧
    (env.trayExists = false →
      update_tray_badge env stored count =
        { result := .error "Tray icon not found", newCount := count, effects := [] }) := by
  refine ⟨update_tray_badge_newCount env stored count h,
          fun _ _ => update_tray_badge_self env2 count, ?_⟩
  intro htray
  unfold update_tray_badge
  rw [if_neg h, htray]
  rfl

/-- The environment in which the tray itself is missing (every other step
would succeed). -/
def noTrayEnv : TrayEnv :=
  { okEnv with trayExists := false }

theorem update_tray_badge_no_rollback_witness :
    (update_tray_badge noTrayEnv 0 4).newCount = 4 ∧
    update_tray_badge noTrayEnv 0 4 =
      { result := .error "Tray icon not found", newCount := 4, effects := [] } :=
  ⟨(update_tray_badge_no_rollback noTrayEnv okEnv 0 4 (by decide)).1,
   (update_tray_badge_no_rollback noTrayEnv okEnv 0 4 (by decide)).2.2 rfl⟩

/-- C10: the badge count is managed as 0 at startup, so a first-ever
`update_tray_badge(0)` is debounced — success, no tray mutation, in every
environment; the default icon is only actively restored after the count moves
to a nonzero value and returns to 0. -/
theorem update_tray_badge_initial_zero_noop (env : TrayEnv) (c : Nat) (hc : c ≠ 0) :
    initial_badge_count = 0 ∧
    update_tray_badge env initial_badge_count 0 =
      { result := .ok (), newCount := 0, effects := [] } ∧
    run_badge_calls okEnv initial_badge_count [0, c, 0] =
      (0, [[],
           [.SetIcon (spec_bucket_icon c), .SetTooltip (tray_tooltip c)],
           [.SetIcon .Default, .SetTooltip "CrewHub"]]) := by
  refine ⟨rfl, update_tray_badge_self env 0, ?_⟩
  simp only [initial_badge_count, run_badge_calls, update_tray_badge_self okEnv 0,
    update_tray_badge_okEnv 0 c (Ne.symm hc), update_tray_badge_okEnv c 0 hc]
  rfl

theorem update_tray_badge_initial_zero_noop_witness :
    update_tray_badge okEnv initial_badge_count 0 =
      { result := .ok (), newCount := 0, effects := [] } ∧
    run_badge_calls okEnv initial_badge_count [0, 1, 0] =
      (0, [[],
           [.SetIcon (spec_bucket_icon 1), .SetTooltip (tray_tooltip 1)],
           [.SetIcon .Default, .SetTooltip "CrewHub"]]) :=
  ⟨(update_tray_badge_initial_zero_noop okEnv 1 (by decide)).2.1,
   (update_tray_badge_initial_zero_noop okEnv 1 (by decide)).2.2⟩

/-- From a live handle that is already visible and focused, every further
`open_or_focus` call only shows and focuses again: no construction, and the
registry keeps the very same handle. -/
theorem run_open_calls_live (w : WinHandle) (hv : w.visible = true) (hf : w.focused = true)
    (k : Nat) (bs : List Bool) :
    run_open_calls { handle := some w, nextId := k } bs =
      ({ handle := some w, nextId := k }, bs.map fun _ => [.ShowWin, .SetFocus]) := by
  have hw : ({ w with visible := true, focused := true } : WinHandle) = w := by
    cases w
    simp_all
  induction bs with
  | nil => rfl
  | cons b bs ih =>
    have ho : open_or_focus b { handle := some w, nextId := k } =
        ({ handle := some w, nextId := k }, [.ShowWin, .SetFocus]) := by
      simp [open_or_focus, show_and_focus, hw]
    simp only [run_open_calls, ho, ih, List.map]

/-- C4: a close request on any of the four managed labels suppresses the
default destroy (`prevent_close`) and hides the window; the handle never
returns to absent, and an `open_or_focus` right after the close finds that
same handle and shows + focuses it without constructing a new window. -/
theorem close_hides_never_destroys (label : String) (w : WinHandle) (k : Nat) (b : Bool)
    (hm : is_managed_label label = true) :
    (on_close_requested label w).1 = some { w with visible := false } ∧
    (on_close_requested label w).2 = [.PreventClose, .HideWin] ∧
    (on_close_requested label w).1 ≠ none ∧
    open_or_focus b { handle := (on_close_requested label w).1, nextId := k } =
      ({ handle := some { w with visible := true, focused := true }, nextId := k },
       [.ShowWin, .SetFocus]) := by
  have h1 : on_close_requested label w =
      (some { w with visible := false }, [.PreventClose, .HideWin]) := by
    simp [on_close_requested, hm]
  rw [h1]
  refine ⟨rfl, rfl, by simp, ?_⟩
  simp [open_or_focus, show_and_focus]

theorem close_hides_never_destroys_witness :
    (on_close_requested "zen-mode" ⟨0, true, false⟩).1 =
      some { id := 0, visible := false, focused := false } ∧
    open_or_focus false
        { handle := (on_close_requested "zen-mode" ⟨0, true, false⟩).1, nextId := 1 } =
      ({ handle := some { id := 0, visible := true, focused := true }, nextId := 1 },
       [.ShowWin, .SetFocus]) :=
  ⟨(close_hides_never_destroys "zen-mode" ⟨0, true, false⟩ 1 false (by decide)).1,
   (close_hides_never_destroys "zen-mode" ⟨0, true, false⟩ 1 false (by decide)).2.2.2⟩

/-- C5: for any number `n ≥ 1` of `open_or_focus` calls on a fixed name with
no construction failures, the window ends visible, exactly one construction
happens across the whole sequence, and every call after the first performs
only show followed by set-focus, in that order. -/
theorem open_or_focus_idempotent_creation (n : Nat) (hn : 1 ≤ n) :
    (∃ w, (open_seq n).1.handle = some w ∧ w.visible = true) ∧
    construct_count (open_seq n).2 = 1 ∧
    (open_seq n).2.head? = some [.Construct, .ShowWin, .SetFocus] ∧
    (∀ l ∈ (open_seq n).2.tail, l = [.ShowWin, .SetFocus]) := by
  obtain ⟨m, rfl⟩ := Nat.exists_eq_add_of_le hn
  have hseq : open_seq (1 + m) =
      ({ handle := some ⟨0, true, true⟩, nextId := 1 },
       [.Construct, .ShowWin, .SetFocus] :: List.replicate m [.ShowWin, .SetFocus]) := by
    unfold open_seq
    rw [Nat.add_comm 1 m, List.replicate_succ]
    have h0 : open_or_focus true { handle := none, nextId := 0 } =
        ({ handle := some ⟨0, true, true⟩, nextId := 1 },
         [.Construct, .ShowWin, .SetFocus]) := rfl
    simp only [run_open_calls, h0, run_open_calls_live ⟨0, true, true⟩ rfl rfl 1,
      List.map_replicate]
  rw [hseq]
  refine ⟨⟨⟨0, true, true⟩, rfl, rfl⟩, ?_, rfl, ?_⟩
  · have h1 : List.count WinEffect.Construct
        [WinEffect.Construct, WinEffect.ShowWin, WinEffect.SetFocus] = 1 := rfl
    have h2 : List.count WinEffect.Construct [WinEffect.ShowWin, WinEffect.SetFocus] = 0 := rfl
    simp [construct_count, List.map_replicate, List.sum_replicate, h1, h2]
  · intro l hl
    exact List.eq_of_mem_replicate hl

theorem open_or_focus_idempotent_creation_witness :
    construct_count (open_seq 3).2 = 1 ∧
    (open_seq 3).2.head? = some [.Construct, .ShowWin, .SetFocus] :=
  ⟨(open_or_focus_idempotent_creation 3 (by decide)).2.1,
   (open_or_focus_idempotent_creation 3 (by decide)).2.2.1⟩

/-- C7: a failed window construction is logged and swallowed — the call
returns normally with the registry unchanged (window still absent, no retry
within the call); the next call for the same name, finding no handle, builds
from scratch. -/
theorem open_or_focus_build_failure (k : Nat) :
    open_or_focus false { handle := none, nextId := k } =
      ({ handle := none, nextId := k }, [.LogError]) ∧
    (open_or_focus true { handle := none, nextId := k }).1.handle =
      some { id := k, visible := true, focused := true } ∧
    (open_or_focus true { handle := none, nextId := k }).2 =
      [.Construct, .ShowWin, .SetFocus] :=
  ⟨rfl, rfl, rfl⟩

theorem open_or_focus_build_failure_witness :
    open_or_focus false { handle := none, nextId := 0 } =
      ({ handle := none, nextId := 0 }, [.LogError]) ∧
    (open_or_focus true { handle := none, nextId := 0 }).2 =
      [.Construct, .ShowWin, .SetFocus] :=
  ⟨(open_or_focus_build_failure 0).1, (open_or_focus_build_failure 0).2.2⟩

/-- C6: the menu dispatch is total — "chat"/"world"/"zen"/"settings" route to
their open actions, "quit" exits the process with code 0, every other id is
logged and ignored (no window action, no exit); a tray left-click mouse-up
dispatches the same action as the "chat" item, and Quit is the only
terminating action. -/
theorem menu_dispatch_total :
    on_menu_event "chat" = .OpenChat ∧
    on_menu_event "world" = .OpenWorld ∧
    on_menu_event "zen" = .OpenZen ∧
    on_menu_event "settings" = .OpenSettings ∧
    on_menu_event "quit" = .Quit 0 ∧
    (∀ id, id ∉ (["chat", "world", "zen", "settings", "quit"] : List String) →
      on_menu_event id = .LogUnknown id ∧
        terminates_process (on_menu_event id) = false) ∧
    on_tray_icon_event (.Click .Left .Up) = some (on_menu_event "chat") ∧
    (∀ e, e ≠ .Click .Left .Up → on_tray_icon_event e = none) ∧
    (∀ id, terminates_process (on_menu_event id) = true → id = "quit") ∧
    terminates_process (.Quit 0) = true := by
  refine ⟨rfl, rfl, rfl, rfl, rfl, ?_, rfl, ?_, ?_, rfl⟩
  · intro id hid
    simp only [List.mem_cons, List.not_mem_nil, or_false, not_or] at hid
    obtain ⟨h1, h2, h3, h4, h5⟩ := hid
    simp [on_menu_event, h1, h2, h3, h4, h5, terminates_process]
  · intro e he
    match e with
    | .Click .Left .Up => exact absurd rfl he
    | .Click .Left .Down => rfl
    | .Click .Right s => rfl
    | .Click .Middle s => rfl
    | .DoubleClick b => rfl
    | .Enter => rfl
    | .Move => rfl
    | .Leave => rfl
  · intro id hterm
    simp only [on_menu_event] at hterm
    split_ifs at hterm with h1 h2 h3 h4 h5
    · exact absurd hterm (by decide)
    · exact absurd hterm (by decide)
    · exact absurd hterm (by decide)
    · exact absurd hterm (by decide)
    · exact h5
    · simp [terminates_process] at hterm

theorem menu_dispatch_total_witness :
    on_menu_event "bogus" = .LogUnknown "bogus" ∧
    terminates_process (on_menu_event "bogus") = false :=
  menu_dispatch_total.2.2.2.2.2.1 "bogus" (by decide)

/-- C8: the window builder configuration matches the geometry contract
exactly: Chat 390×700, min 320×500, skips the taskbar; World 1280×900,
min 900×600, taskbar-visible; Settings 420×280, non-resizable, always on top,
skips the taskbar; Zen 820×920, min 600×500. -/
theorem window_geometry_contract (apiUrlVar : Option String) :
    (chat_spec apiUrlVar).width = 390 ∧
    (chat_spec apiUrlVar).height = 700 ∧
    (chat_spec apiUrlVar).minWidth = some 320 ∧
    (chat_spec apiUrlVar).minHeight = some 500 ∧
    (chat_spec apiUrlVar).skipTaskbar = true ∧
    (world_spec apiUrlVar).width = 1280 ∧
    (world_spec apiUrlVar).height = 900 ∧
    (world_spec apiUrlVar).minWidth = some 900 ∧
    (world_spec apiUrlVar).minHeight = some 600 ∧
    (world_spec apiUrlVar).skipTaskbar = false ∧
    (settings_spec apiUrlVar).width = 420 ∧
    (settings_spec apiUrlVar).height = 280 ∧
    (settings_spec apiUrlVar).resizable = false ∧
    (settings_spec apiUrlVar).alwaysOnTop = true ∧
    (settings_spec apiUrlVar).skipTaskbar = true ∧
    (zen_spec apiUrlVar).width = 820 ∧
    (zen_spec apiUrlVar).height = 920 ∧
    (zen_spec apiUrlVar).minWidth = some 600 ∧
    (zen_spec apiUrlVar).minHeight = some 500 := by
  and_intros <;> rfl

theorem window_geometry_contract_witness :
    (chat_spec none).width = 390 ∧ (world_spec none).skipTaskbar = false ∧
    (settings_spec none).alwaysOnTop = true ∧ (zen_spec none).height = 920 :=
  ⟨(window_geometry_contract none).1,
   (window_geometry_contract none).2.2.2.2.2.2.2.2.2.1,
   (window_geometry_contract none).2.2.2.2.2.2.2.2.2.2.2.2.2.1,
   (window_geometry_contract none).2.2.2.2.2.2.2.2.2.2.2.2.2.2.2.2.1⟩

set_option maxRecDepth 8192 in
/-- The init script of the settings window, with the backend URL at its fallback
value, nowhere mentions the onboarding flag key, so it does not persist the
"onboarding complete" flag. -/
theorem settings_init_no_onboarding_flag :
    ¬ contains_sub (settings_init_script none) "crewhub-onboarded" := by
  decide

/-- `contains_sub` from an explicit decomposition of the string. -/
theorem contains_sub_of_parts (pre pat suf s : String)
    (h : s.toList = pre.toList ++ (pat.toList ++ suf.toList)) : contains_sub s pat :=
  ⟨pre.toList, suf.toList, by rw [h]; exact List.append_assoc _ _ _⟩

/-- C9 (amended): the init script of every window sets the backend URL global —
read from `VITE_API_URL` with fallback `http://localhost:8091` — and the chat,
world and zen scripts additionally persist the onboarding-complete flag; the
settings script consists of the view-mode and backend-URL assignments only. -/
theorem init_scripts_backend_and_onboarding (apiUrlVar : Option String) (u : String) :
    contains_sub (chat_init_script apiUrlVar) (backend_url_assign apiUrlVar) ∧
    contains_sub (chat_init_script apiUrlVar) onboarding_persist_stmt ∧
    contains_sub (world_init_script apiUrlVar) (backend_url_assign apiUrlVar) ∧
    contains_sub (world_init_script apiUrlVar) onboarding_persist_stmt ∧
    contains_sub (zen_init_script apiUrlVar) (backend_url_assign apiUrlVar) ∧
    contains_sub (zen_init_script apiUrlVar) onboarding_persist_stmt ∧
    contains_sub (settings_init_script apiUrlVar) (backend_url_assign apiUrlVar) ∧
    settings_init_script apiUrlVar =
      "window.__TAURI_VIEW__ = " ++ sq ++ "settings" ++ sq ++ "; " ++
        backend_url_assign apiUrlVar ++ ";" ∧
    backend_url none = "http://localhost:8091" ∧
    backend_url (some u) = u := by
  refine ⟨?_, ?_, ?_, ?_, ?_, ?_, ?_, rfl, rfl, rfl⟩
  · exact contains_sub_of_parts
      ("window.__TAURI_VIEW__ = " ++ sq ++ "mobile" ++ sq ++ "; ") _
      ("; " ++ onboarding_persist_stmt) _
      (by simp [chat_init_script, base_init, str_toList_append, List.append_assoc])
  · exact contains_sub_of_parts
      ("window.__TAURI_VIEW__ = " ++ sq ++ "mobile" ++ sq ++ "; " ++
        backend_url_assign apiUrlVar ++ "; ") _ "" _
      (by simp [chat_init_script, base_init, str_toList_append, List.append_assoc])
  · exact contains_sub_of_parts
      ("window.__TAURI_VIEW__ = " ++ sq ++ "desktop" ++ sq ++ "; ") _
      ("; " ++ onboarding_persist_stmt) _
      (by simp [world_init_script, base_init, str_toList_append, List.append_assoc])
  · exact contains_sub_of_parts
      ("window.__TAURI_VIEW__ = " ++ sq ++ "desktop" ++ sq ++ "; " ++
        backend_url_assign apiUrlVar ++ "; ") _ "" _
      (by simp [world_init_script, base_init, str_toList_append, List.append_assoc])
  · exact contains_sub_of_parts
      ("window.__TAURI_VIEW__ = " ++ sq ++ "zen" ++ sq ++ "; ") _
      ("; " ++ onboarding_persist_stmt) _
      (by simp [zen_init_script, base_init, str_toList_append, List.append_assoc])
  · exact contains_sub_of_parts
      ("window.__TAURI_VIEW__ = " ++ sq ++ "zen" ++ sq ++ "; " ++
        backend_url_assign apiUrlVar ++ "; ") _ "" _
      (by simp [zen_init_script, base_init, str_toList_append, List.append_assoc])
  · exact contains_sub_of_parts
      ("window.__TAURI_VIEW__ = " ++ sq ++ "settings" ++ sq ++ "; ") _ ";" _
      (by simp [settings_init_script, str_toList_append, List.append_assoc])

theorem init_scripts_backend_and_onboarding_witness :
    contains_sub (chat_init_script none) onboarding_persist_stmt ∧
    contains_sub (settings_init_script none) (backend_url_assign none) ∧
    backend_url (some "http://h:1") = "http://h:1" :=
  ⟨(init_scripts_backend_and_onboarding none "http://h:1").2.1,
   (init_scripts_backend_and_onboarding none "http://h:1").2.2.2.2.2.2.1,
   (init_scripts_backend_and_onboarding none "http://h:1").2.2.2.2.2.2.2.2.2⟩

end CrewHub
